import Mathlib

/-!
A shallow embedding of the request dispatcher of the etherpadlite Go client.

The authoritative source is the current revision of `etherpadlite.go` (the
variant declaring `RaiseEtherpadErrors`, `ReturnCode` and `CurrentVersion`):
the other two revisions of the same file found in the repository are older
versions of the identical package and are superseded by it.

Modelling conventions:
* Go `interface{}` parameter values are modelled by `GoValue`; Go interface
  equality compares the dynamic type first, so only the dedicated constructor
  `GoValue.optionalParam` is equal to the sentinel `OptionalParam`.
* Go maps `map[string]interface{}` are modelled as association lists; the
  per-endpoint methods only build maps with pairwise distinct keys, so a map
  literal followed by fresh-key insertions is a literal list.
* `url.Values` together with the two `Add` loops of `sendRequest` is modelled
  by `buildParams`, the list of key/value pairs added to the query (both maps
  are added, nothing is deduplicated), each value rendered by `sprintfV`,
  the model of `fmt.Sprintf` with the `%v` verb on the values we model.
* The network environment (the stdlib pieces `url.Parse`, `http.NewRequest`
  and `Client.Do`) is an oracle `World`.  The response body is delivered
  already parsed as an optional `Json` value (`none` when the bytes are not
  valid JSON; the textual JSON parser is stdlib, not repository code).
* `decodeResponse` models `encoding/json` unmarshalling of a JSON value into
  the `Response` struct: a top-level object is decoded field by field (names
  matched case-insensitively, unknown fields ignored, absent fields keeping
  their zero values, `null` leaving a field untouched, a type mismatch on a
  matched field an error), a top-level `null` is the documented no-op that
  leaves the zero struct with a nil error, and every other top-level shape
  fails to unmarshal into a struct.
* `sendRequest` is instrumented: besides the Go results (the optional
  `Response` pointer and the optional error) it records the outbound requests
  issued, the console output produced (the current dispatcher prints nothing)
  and the configuration as it stands after the call, so that frame claims can
  be stated.
-/

namespace Etherpadlite

/-- A Go `interface{}` value as passed to the per-endpoint methods.
`optionalParam` is the sentinel `OptionalParam`, the value `0` of the
unexported named type `optionalParamType`; because Go interface equality
compares dynamic types, it is distinct from `int 0`, `str "0"` and
`bool false`. -/
inductive GoValue where
  | optionalParam : GoValue
  | int (n : Int) : GoValue
  | str (s : String) : GoValue
  | bool (b : Bool) : GoValue
deriving DecidableEq, Repr

/-- Model of `fmt.Sprintf` with verb `%v` on the values we model: integers
print in decimal, strings print verbatim, booleans print `true`/`false`, and
the sentinel (a named integer type holding `0`) prints `0`. -/
def sprintfV : GoValue → String
  | GoValue.optionalParam => "0"
  | GoValue.int n => toString n
  | GoValue.str s => s
  | GoValue.bool b => if b then "true" else "false"

/-- The endpoint configuration (struct `EtherpadLite`).  The `Client` field is
not carried here: the network client is part of the `World` oracle. -/
structure EtherpadLite where
  APIVersion : String
  BaseParams : List (String × GoValue)
  BaseURL : String
  RaiseEtherpadErrors : Bool
deriving DecidableEq, Repr

/-- The default version (constant `CurrentVersion`). -/
def CurrentVersion : String := "1.2.13"

/-- Constructor `NewEtherpadLite`: fills in the api key, the default version,
the default base URL and leaves error raising off. -/
def NewEtherpadLite (apiKey : String) : EtherpadLite :=
  { APIVersion := CurrentVersion
    BaseParams := [("apikey", GoValue.str apiKey)]
    BaseURL := "http://localhost:9001/api"
    RaiseEtherpadErrors := false }

/-- `type ReturnCode int`. -/
abbrev ReturnCode := Int

def EverythingOk : ReturnCode := 0
def WrongParamters : ReturnCode := 1
def InternalError : ReturnCode := 2
def NoSuchFunction : ReturnCode := 3
def WrongAPIKey : ReturnCode := 4

/-- The `String` method of `ReturnCode`: a switch on the five named codes,
with `fmt.Sprintf` of the integer followed by ` unknown return code` as the
default case. -/
def ReturnCodeString (c : ReturnCode) : String :=
  if c = EverythingOk then "0 everything ok"
  else if c = WrongParamters then "1 wrong parameters"
  else if c = InternalError then "2 internal error"
  else if c = NoSuchFunction then "3 no such function"
  else if c = WrongAPIKey then "4 no or wrong API Key"
  else toString c ++ " unknown return code"

/-- A JSON value (integral numbers only; no claim depends on non-integral
numbers). -/
inductive Json where
  | null : Json
  | bool (b : Bool) : Json
  | num (n : Int) : Json
  | str (s : String) : Json
  | arr (elems : List Json) : Json
  | obj (fields : List (String × Json)) : Json

/-- The decoded response envelope (struct `Response`).  `Data` is the Go map
`map[string]interface{}`; `none` is the nil map a fresh `Response` holds. -/
structure Response where
  Code : ReturnCode
  Message : String
  Data : Option (List (String × Json))

/-- ASCII lower-casing of a character (the envelope's field names are ASCII,
so the case-insensitive field matching of `encoding/json` coincides with
ASCII folding on them). -/
def lowerChar (c : Char) : Char :=
  if 65 ≤ c.toNat ∧ c.toNat ≤ 90 then Char.ofNat (c.toNat + 32) else c

/-- ASCII lower-casing of a string. -/
def lowerAscii (s : String) : String := String.mk (s.data.map lowerChar)

/-- One step of `encoding/json` unmarshalling of an object field into the
`Response` struct: field names match case-insensitively, `null` leaves the
field untouched, a type mismatch on a matched field is an error, and an
unknown field is ignored. -/
def decodeStep (r : Response) (kv : String × Json) : Except String Response :=
  if lowerAscii kv.1 = "code" then
    match kv.2 with
    | Json.null => Except.ok r
    | Json.num n => Except.ok { r with Code := n }
    | _ => Except.error "json: cannot unmarshal value into Go struct field Response.Code of type etherpadlite.ReturnCode"
  else if lowerAscii kv.1 = "message" then
    match kv.2 with
    | Json.null => Except.ok r
    | Json.str s => Except.ok { r with Message := s }
    | _ => Except.error "json: cannot unmarshal value into Go struct field Response.Message of type string"
  else if lowerAscii kv.1 = "data" then
    match kv.2 with
    | Json.null => Except.ok r
    | Json.obj fs => Except.ok { r with Data := some fs }
    | _ => Except.error "json: cannot unmarshal value into Go struct field Response.Data of type map[string]interface \x7b\x7d"
  else Except.ok r

/-- Model of `json.NewDecoder(resp.Body).Decode(&padResponse)` applied to an
already-parsed JSON value: a top-level JSON object has its fields folded over
the zero `Response` by `decodeStep`; a top-level `null` is, per the
documented `encoding/json` contract, a no-op that leaves the zero struct in
place with a nil error; every other top-level shape fails to unmarshal into
a struct. -/
def decodeResponse : Json → Except String Response
  | Json.obj fields => fields.foldlM decodeStep { Code := 0, Message := "", Data := none }
  | Json.null => Except.ok { Code := 0, Message := "", Data := none }
  | _ => Except.error "json: cannot unmarshal value into Go value of type etherpadlite.Response"

/-- The errors `sendRequest` can return. -/
inductive GoError where
  | parseError (msg : String) : GoError
  | requestError (msg : String) : GoError
  | transportError (msg : String) : GoError
  | ctxCancelled : GoError
  | jsonError (msg : String) : GoError
  | etherpadError (code : ReturnCode) (message : String) : GoError
deriving DecidableEq, Repr

/-- `NewEtherpadError`: packs a non-ok code and the envelope message. -/
def NewEtherpadError (code : ReturnCode) (message : String) : GoError :=
  GoError.etherpadError code message

/-- The `Error` method of `EtherpadError`: the code rendering, a colon and
the message. -/
def EtherpadErrorMessage (code : ReturnCode) (message : String) : String :=
  ReturnCodeString code ++ ": " ++ message

/-- Behaviour of the caller-supplied context over the lifetime of one call:
absent contexts are modelled by `Option.none` at the call sites. -/
inductive CtxBehaviour where
  | never : CtxBehaviour
  | beforeCall : CtxBehaviour
  | duringCall : CtxBehaviour
deriving DecidableEq, Repr

/-- One outbound HTTP request: the composed address (the string handed to
`url.Parse`) and the key/value pairs added to its query. -/
structure Request where
  address : String
  query : List (String × String)
deriving DecidableEq, Repr

/-- Outcome of a completed exchange attempt by the network client. -/
inductive DoOutcome where
  | body (b : Option Json) : DoOutcome
  | fail (msg : String) : DoOutcome

/-- The environment oracle: the stdlib URL parser's verdict on the composed
address, the verdict of `http.NewRequest`, and the network transport. -/
structure World where
  parseErr : String → Option String
  reqErr : Option String
  transport : Request → DoOutcome

/-- Modelled from the stdlib contract of `net/http`: `Client.Do` on a request
carrying a context that is already done, or whose context fires while the
exchange is in flight, returns a non-nil error wrapping the context's error
and no usable response; otherwise the transport decides the outcome. -/
def clientDo (ctx : Option CtxBehaviour) (w : World) (req : Request) :
    Except GoError (Option Json) :=
  match ctx with
  | some CtxBehaviour.beforeCall => Except.error GoError.ctxCancelled
  | some CtxBehaviour.duringCall => Except.error GoError.ctxCancelled
  | _ =>
    match w.transport req with
    | DoOutcome.body b => Except.ok b
    | DoOutcome.fail m => Except.error (GoError.transportError m)

/-- The address composed by `fmt.Sprintf` with three `%s` verbs at the top of
`sendRequest`. -/
def composeAddress (pad : EtherpadLite) (path : String) : String :=
  pad.BaseURL ++ "/" ++ pad.APIVersion ++ "/" ++ path

/-- The two `Add` loops of `sendRequest`: every entry of `BaseParams` and
then every entry of the per-call map is added to the `url.Values`, each value
rendered with the `%v` verb; nothing is deduplicated. -/
def buildParams (base perCall : List (String × GoValue)) : List (String × String) :=
  base.map (fun kv => (kv.1, sprintfV kv.2)) ++ perCall.map (fun kv => (kv.1, sprintfV kv.2))

/-- Instrumented result of one `sendRequest` invocation: the two Go results,
plus the outbound requests issued, the console output produced and the
configuration as it stands after the call. -/
structure SendResult where
  resp : Option Response
  err : Option GoError
  sent : List Request
  prints : List String
  padAfter : EtherpadLite

/-- The dispatcher `sendRequest` of the current revision: compose the
address, build the query from both parameter maps, issue the GET (honouring
the context), decode the body into a `Response`, and, when
`RaiseEtherpadErrors` is set and the code is not `EverythingOk`, return the
envelope together with an `EtherpadError`; otherwise return the envelope
with a nil error.  Every failure path returns a nil envelope with the
error. -/
def sendRequest (w : World) (pad : EtherpadLite) (ctx : Option CtxBehaviour)
    (path : String) (params : List (String × GoValue)) : SendResult :=
  let addr := composeAddress pad path
  match w.parseErr addr with
  | some m => ⟨none, some (GoError.parseError m), [], [], pad⟩
  | none =>
    let req : Request := ⟨addr, buildParams pad.BaseParams params⟩
    match w.reqErr with
    | some m => ⟨none, some (GoError.requestError m), [], [], pad⟩
    | none =>
      match clientDo ctx w req with
      | Except.error e => ⟨none, some e, [req], [], pad⟩
      | Except.ok none =>
          ⟨none, some (GoError.jsonError "invalid character in JSON body"), [req], [], pad⟩
      | Except.ok (some j) =>
        match decodeResponse j with
        | Except.error m => ⟨none, some (GoError.jsonError m), [req], [], pad⟩
        | Except.ok padResponse =>
          if pad.RaiseEtherpadErrors = true ∧ padResponse.Code ≠ EverythingOk then
            ⟨some padResponse,
             some (NewEtherpadError padResponse.Code padResponse.Message), [req], [], pad⟩
          else
            ⟨some padResponse, none, [req], [], pad⟩

/-- Parameter map built by `GetText`: `padID` always, `rev` only when it is
not the sentinel. -/
def getTextParams (padID rev : GoValue) : List (String × GoValue) :=
  [("padID", padID)] ++ (if rev = GoValue.optionalParam then [] else [("rev", rev)])

/-- Method `GetText`. -/
def GetText (w : World) (pad : EtherpadLite) (ctx : Option CtxBehaviour)
    (padID rev : GoValue) : SendResult :=
  sendRequest w pad ctx "getText" (getTextParams padID rev)

/-- Parameter map built by `CopyPad`: `force` is sent as the boolean `false`
when the caller passes the sentinel, and as the given value otherwise. -/
def copyPadParams (sourceID destinationID force : GoValue) : List (String × GoValue) :=
  [("sourceID", sourceID), ("destinationID", destinationID),
   ("force", if force = GoValue.optionalParam then GoValue.bool false else force)]

/-- Method `CopyPad`. -/
def CopyPad (w : World) (pad : EtherpadLite) (ctx : Option CtxBehaviour)
    (sourceID destinationID force : GoValue) : SendResult :=
  sendRequest w pad ctx "copyPad" (copyPadParams sourceID destinationID force)

/-- Parameter map built by `MovePad` (the source duplicates the `CopyPad`
logic verbatim). -/
def movePadParams (sourceID destinationID force : GoValue) : List (String × GoValue) :=
  [("sourceID", sourceID), ("destinationID", destinationID),
   ("force", if force = GoValue.optionalParam then GoValue.bool false else force)]

/-- Method `MovePad`. -/
def MovePad (w : World) (pad : EtherpadLite) (ctx : Option CtxBehaviour)
    (sourceID destinationID force : GoValue) : SendResult :=
  sendRequest w pad ctx "movePad" (movePadParams sourceID destinationID force)

/-- Example world whose address parsing and request building succeed and
whose transport always delivers the given body. -/
def okWorld (b : Option Json) : World :=
  { parseErr := fun _ => none
    reqErr := none
    transport := fun _ => DoOutcome.body b }

/-- Example body: the envelope of the spec's bad-credentials test case,
`code` 4, `message` "ok", empty `data` object. -/
def code4Body : Json :=
  Json.obj [("code", Json.num 4), ("message", Json.str "ok"), ("data", Json.obj [])]

/-- Example world delivering the bad-credentials body. -/
def w4 : World := okWorld (some code4Body)

/-- Example configuration with the raise-errors flag set. -/
def padRaise : EtherpadLite :=
  { APIVersion := CurrentVersion
    BaseParams := [("apikey", GoValue.str "secret")]
    BaseURL := "http://localhost:9001/api"
    RaiseEtherpadErrors := true }

/-- Example configuration with the raise-errors flag cleared. -/
def padPlain : EtherpadLite :=
  { padRaise with RaiseEtherpadErrors := false }

/-- Example world delivering a body that is valid JSON but an empty object,
so it has none of the three envelope fields. -/
def wEmptyObj : World := okWorld (some (Json.obj []))

/-- Example world delivering a body that is not valid JSON. -/
def wBadJson : World := okWorld none

/-! Helper lemmas characterizing `sendRequest` on each of its branches. -/

theorem sendRequest_parse_fail (w : World) (pad : EtherpadLite) (ctx : Option CtxBehaviour)
    (path : String) (params : List (String × GoValue)) (m : String)
    (hp : w.parseErr (composeAddress pad path) = some m) :
    sendRequest w pad ctx path params = ⟨none, some (GoError.parseError m), [], [], pad⟩ := by
  simp only [sendRequest, hp]

theorem sendRequest_req_fail (w : World) (pad : EtherpadLite) (ctx : Option CtxBehaviour)
    (path : String) (params : List (String × GoValue)) (m : String)
    (hp : w.parseErr (composeAddress pad path) = none) (hr : w.reqErr = some m) :
    sendRequest w pad ctx path params = ⟨none, some (GoError.requestError m), [], [], pad⟩ := by
  simp only [sendRequest, hp, hr]

theorem sendRequest_do_error (w : World) (pad : EtherpadLite) (ctx : Option CtxBehaviour)
    (path : String) (params : List (String × GoValue)) (e : GoError)
    (hp : w.parseErr (composeAddress pad path) = none) (hr : w.reqErr = none)
    (hd : clientDo ctx w ⟨composeAddress pad path, buildParams pad.BaseParams params⟩ =
      Except.error e) :
    sendRequest w pad ctx path params =
      ⟨none, some e, [⟨composeAddress pad path, buildParams pad.BaseParams params⟩], [], pad⟩ := by
  simp only [sendRequest, hp, hr, hd]

theorem sendRequest_bad_json (w : World) (pad : EtherpadLite) (ctx : Option CtxBehaviour)
    (path : String) (params : List (String × GoValue))
    (hp : w.parseErr (composeAddress pad path) = none) (hr : w.reqErr = none)
    (hd : clientDo ctx w ⟨composeAddress pad path, buildParams pad.BaseParams params⟩ =
      Except.ok none) :
    sendRequest w pad ctx path params =
      ⟨none, some (GoError.jsonError "invalid character in JSON body"),
       [⟨composeAddress pad path, buildParams pad.BaseParams params⟩], [], pad⟩ := by
  simp only [sendRequest, hp, hr, hd]

theorem sendRequest_decode_fail (w : World) (pad : EtherpadLite) (ctx : Option CtxBehaviour)
    (path : String) (params : List (String × GoValue)) (j : Json) (m : String)
    (hp : w.parseErr (composeAddress pad path) = none) (hr : w.reqErr = none)
    (hd : clientDo ctx w ⟨composeAddress pad path, buildParams pad.BaseParams params⟩ =
      Except.ok (some j))
    (hj : decodeResponse j = Except.error m) :
    sendRequest w pad ctx path params =
      ⟨none, some (GoError.jsonError m),
       [⟨composeAddress pad path, buildParams pad.BaseParams params⟩], [], pad⟩ := by
  simp only [sendRequest, hp, hr, hd, hj]

theorem sendRequest_ok_raise (w : World) (pad : EtherpadLite) (ctx : Option CtxBehaviour)
    (path : String) (params : List (String × GoValue)) (j : Json) (env : Response)
    (hp : w.parseErr (composeAddress pad path) = none) (hr : w.reqErr = none)
    (hd : clientDo ctx w ⟨composeAddress pad path, buildParams pad.BaseParams params⟩ =
      Except.ok (some j))
    (hj : decodeResponse j = Except.ok env)
    (hflag : pad.RaiseEtherpadErrors = true) (hcode : env.Code ≠ EverythingOk) :
    sendRequest w pad ctx path params =
      ⟨some env, some (NewEtherpadError env.Code env.Message),
       [⟨composeAddress pad path, buildParams pad.BaseParams params⟩], [], pad⟩ := by
  simp only [sendRequest, hp, hr, hd, hj]
  rw [if_pos ⟨hflag, hcode⟩]

theorem sendRequest_ok_plain (w : World) (pad : EtherpadLite) (ctx : Option CtxBehaviour)
    (path : String) (params : List (String × GoValue)) (j : Json) (env : Response)
    (hp : w.parseErr (composeAddress pad path) = none) (hr : w.reqErr = none)
    (hd : clientDo ctx w ⟨composeAddress pad path, buildParams pad.BaseParams params⟩ =
      Except.ok (some j))
    (hj : decodeResponse j = Except.ok env)
    (hq : ¬(pad.RaiseEtherpadErrors = true ∧ env.Code ≠ EverythingOk)) :
    sendRequest w pad ctx path params =
      ⟨some env, none,
       [⟨composeAddress pad path, buildParams pad.BaseParams params⟩], [], pad⟩ := by
  simp only [sendRequest, hp, hr, hd, hj]
  rw [if_neg hq]

theorem clientDo_error_shape (ctx : Option CtxBehaviour) (w : World) (req : Request)
    (e : GoError) (h : clientDo ctx w req = Except.error e) :
    e = GoError.ctxCancelled ∨ ∃ m, e = GoError.transportError m := by
  unfold clientDo at h
  cases ctx with
  | none =>
    cases ht : w.transport req with
    | body b => rw [ht] at h; cases h
    | fail m => rw [ht] at h; exact Or.inr ⟨m, (Except.error.injEq _ _).mp h.symm⟩
  | some c =>
    cases c with
    | never =>
      cases ht : w.transport req with
      | body b => rw [ht] at h; cases h
      | fail m => rw [ht] at h; exact Or.inr ⟨m, (Except.error.injEq _ _).mp h.symm⟩
    | beforeCall => exact Or.inl ((Except.error.injEq _ _).mp h.symm)
    | duringCall => exact Or.inl ((Except.error.injEq _ _).mp h.symm)

theorem mem_sent (w : World) (pad : EtherpadLite) (ctx : Option CtxBehaviour)
    (path : String) (params : List (String × GoValue)) (req : Request)
    (h : req ∈ (sendRequest w pad ctx path params).sent) :
    req = ⟨composeAddress pad path, buildParams pad.BaseParams params⟩ := by
  cases hp : w.parseErr (composeAddress pad path) with
  | some m =>
    rw [sendRequest_parse_fail w pad ctx path params m hp] at h
    cases h
  | none =>
    cases hr : w.reqErr with
    | some m =>
      rw [sendRequest_req_fail w pad ctx path params m hp hr] at h
      cases h
    | none =>
      cases hd : clientDo ctx w ⟨composeAddress pad path, buildParams pad.BaseParams params⟩ with
      | error e =>
        rw [sendRequest_do_error w pad ctx path params e hp hr hd] at h
        simpa using h
      | ok ob =>
        cases ob with
        | none =>
          rw [sendRequest_bad_json w pad ctx path params hp hr hd] at h
          simpa using h
        | some j =>
          cases hj : decodeResponse j with
          | error m =>
            rw [sendRequest_decode_fail w pad ctx path params j m hp hr hd hj] at h
            simpa using h
          | ok env =>
            by_cases hq : pad.RaiseEtherpadErrors = true ∧ env.Code ≠ EverythingOk
            · rw [sendRequest_ok_raise w pad ctx path params j env hp hr hd hj hq.1 hq.2] at h
              simpa using h
            · rw [sendRequest_ok_plain w pad ctx path params j env hp hr hd hj hq] at h
              simpa using h

/-- C5: for every base address, API version string, operation path and
per-call parameter map, the composed request address (before the query
string) equals the base address, the API version and the operation path
joined with `/`, and so does the address of every request `sendRequest`
actually sends, independent of the per-call parameters. -/
theorem c5_address_join (pad : EtherpadLite) (path : String)
    (params : List (String × GoValue)) :
    composeAddress pad path = pad.BaseURL ++ "/" ++ pad.APIVersion ++ "/" ++ path ∧
    ∀ w ctx req, req ∈ (sendRequest w pad ctx path params).sent →
      req.address = pad.BaseURL ++ "/" ++ pad.APIVersion ++ "/" ++ path := by
  refine ⟨rfl, ?_⟩
  intro w ctx req h
  rw [mem_sent w pad ctx path params req h]
  rfl

/-- C3: every key of the fixed `BaseParams` map appears in the query built by
`sendRequest` with its `BaseParams` value, for every per-call map (including
maps that contain the same key); a colliding per-call value is added as well,
so the fixed value is never dropped or replaced. -/
theorem c3_fixed_params_present (pad : EtherpadLite) (params : List (String × GoValue))
    (k : String) (v : GoValue) (h : (k, v) ∈ pad.BaseParams) :
    (k, sprintfV v) ∈ buildParams pad.BaseParams params ∧
    (∀ v2, (k, v2) ∈ params → (k, sprintfV v2) ∈ buildParams pad.BaseParams params) ∧
    (∀ w ctx path req, req ∈ (sendRequest w pad ctx path params).sent →
       (k, sprintfV v) ∈ req.query) := by
  have hbase : (k, sprintfV v) ∈ buildParams pad.BaseParams params := by
    unfold buildParams
    exact List.mem_append_left _ (List.mem_map_of_mem (fun kv => (kv.1, sprintfV kv.2)) h)
  refine ⟨hbase, ?_, ?_⟩
  · intro v2 h2
    unfold buildParams
    exact List.mem_append_right _ (List.mem_map_of_mem (fun kv => (kv.1, sprintfV kv.2)) h2)
  · intro w ctx path req hreq
    rw [mem_sent w pad ctx path params req hreq]
    exact hbase

/-- C3 witness: a per-call map that itself binds `apikey` does not displace
the fixed `apikey` entry from the built query. -/
theorem c3_fixed_params_present_witness :
    ("apikey", "secret") ∈
      buildParams padRaise.BaseParams [("apikey", GoValue.str "evil")] :=
  (c3_fixed_params_present padRaise [("apikey", GoValue.str "evil")]
    "apikey" (GoValue.str "secret") (by simp [padRaise])).1

/-- C8: the textual rendering of a return code maps each member of the closed
enumeration to its fixed string, and renders every integer outside `0..4`
generically as the integer followed by ` unknown return code`. -/
theorem c8_return_code_rendering :
    ReturnCodeString EverythingOk = "0 everything ok" ∧
    ReturnCodeString WrongParamters = "1 wrong parameters" ∧
    ReturnCodeString InternalError = "2 internal error" ∧
    ReturnCodeString NoSuchFunction = "3 no such function" ∧
    ReturnCodeString WrongAPIKey = "4 no or wrong API Key" ∧
    ∀ c : ReturnCode, ¬(0 ≤ c ∧ c ≤ 4) →
      ReturnCodeString c = toString c ++ " unknown return code" := by
  refine ⟨rfl, rfl, rfl, rfl, rfl, ?_⟩
  intro c h
  have h0 : c ≠ EverythingOk := by rintro rfl; exact h (by norm_num [EverythingOk])
  have h1 : c ≠ WrongParamters := by rintro rfl; exact h (by norm_num [WrongParamters])
  have h2 : c ≠ InternalError := by rintro rfl; exact h (by norm_num [InternalError])
  have h3 : c ≠ NoSuchFunction := by rintro rfl; exact h (by norm_num [NoSuchFunction])
  have h4 : c ≠ WrongAPIKey := by rintro rfl; exact h (by norm_num [WrongAPIKey])
  simp [ReturnCodeString, h0, h1, h2, h3, h4]

/-- C8 witness: the value `7`, outside the enumeration, renders
generically. -/
theorem c8_return_code_rendering_witness :
    ReturnCodeString 7 = "7 unknown return code" :=
  (c8_return_code_rendering.2.2.2.2.2 7 (by decide)).trans rfl

/-- C10: only the typed sentinel triggers omission of an optional parameter:
`GetText` with `rev` equal to the sentinel builds no `rev` entry, while the
plain integer `0`, the string `"0"` and the boolean `false` — and in general
every non-sentinel value — produce a `rev` entry, which then reaches the
built query. -/
theorem c10_sentinel_no_collision (padID : GoValue) (base : List (String × GoValue)) :
    (∀ s, ("rev", s) ∉ getTextParams padID GoValue.optionalParam) ∧
    ("rev", GoValue.int 0) ∈ getTextParams padID (GoValue.int 0) ∧
    ("rev", GoValue.str "0") ∈ getTextParams padID (GoValue.str "0") ∧
    ("rev", GoValue.bool false) ∈ getTextParams padID (GoValue.bool false) ∧
    (∀ v, v ≠ GoValue.optionalParam →
      ("rev", sprintfV v) ∈ buildParams base (getTextParams padID v)) := by
  refine ⟨?_, by simp [getTextParams], by simp [getTextParams], by simp [getTextParams], ?_⟩
  · intro s
    simp [getTextParams]
  · intro v hv
    have hl : getTextParams padID v = [("padID", padID), ("rev", v)] := by
      simp [getTextParams, hv]
    rw [hl]
    unfold buildParams
    refine List.mem_append_right _ ?_
    simp

/-- C10 witness: the plain integer `0` passed for `rev` is included, not
treated as the sentinel. -/
theorem c10_sentinel_no_collision_witness :
    ("rev", sprintfV (GoValue.int 0)) ∈
      buildParams [] (getTextParams (GoValue.str "p") (GoValue.int 0)) :=
  (c10_sentinel_no_collision (GoValue.str "p") []).2.2.2.2 (GoValue.int 0) (by decide)

/-- C6: passing the sentinel for an optional parameter omits the key from
the outgoing query entirely (`GetText` sends no `rev` key, provided the
fixed parameters do not themselves bind `rev`), while the default-valued
operations `CopyPad` and `MovePad` turn the sentinel for `force` into the
key `force` with the textual value `false`. -/
theorem c6_optional_omitted (w : World) (pad : EtherpadLite) (ctx : Option CtxBehaviour)
    (padID sourceID destinationID : GoValue)
    (hbase : ∀ v, ("rev", v) ∉ pad.BaseParams) :
    (∀ s, ("rev", s) ∉
      buildParams pad.BaseParams (getTextParams padID GoValue.optionalParam)) ∧
    (∀ req, req ∈ (GetText w pad ctx padID GoValue.optionalParam).sent →
      ∀ s, ("rev", s) ∉ req.query) ∧
    (∀ req, req ∈ (CopyPad w pad ctx sourceID destinationID GoValue.optionalParam).sent →
      ("force", "false") ∈ req.query) ∧
    (∀ req, req ∈ (MovePad w pad ctx sourceID destinationID GoValue.optionalParam).sent →
      ("force", "false") ∈ req.query) := by
  have hquery : ∀ s, ("rev", s) ∉
      buildParams pad.BaseParams (getTextParams padID GoValue.optionalParam) := by
    intro s hs
    unfold buildParams at hs
    rcases List.mem_append.mp hs with hs | hs
    · rcases List.mem_map.mp hs with ⟨⟨k, v⟩, hkv, heq⟩
      have hk : k = "rev" := congrArg Prod.fst heq
      exact hbase v (hk ▸ hkv)
    · rcases List.mem_map.mp hs with ⟨⟨k, v⟩, hkv, heq⟩
      simp [getTextParams] at hkv
      have hk : k = "rev" := congrArg Prod.fst heq
      rw [hkv.1] at hk
      exact absurd hk (by decide)
  refine ⟨hquery, ?_, ?_, ?_⟩
  · intro req hreq s
    rw [mem_sent w pad ctx "getText" (getTextParams padID GoValue.optionalParam) req hreq]
    exact hquery s
  · intro req hreq
    rw [mem_sent w pad ctx "copyPad"
      (copyPadParams sourceID destinationID GoValue.optionalParam) req hreq]
    unfold buildParams
    refine List.mem_append_right _ ?_
    simp [copyPadParams, sprintfV]
  · intro req hreq
    rw [mem_sent w pad ctx "movePad"
      (movePadParams sourceID destinationID GoValue.optionalParam) req hreq]
    unfold buildParams
    refine List.mem_append_right _ ?_
    simp [movePadParams, sprintfV]

/-- C6 witness: under the example configuration (whose only fixed key is
`apikey`), `GetText` with the sentinel revision builds a query with no
`rev` entry at all. -/
theorem c6_optional_omitted_witness :
    ("rev", "0") ∉
      buildParams padRaise.BaseParams
        (getTextParams (GoValue.str "p") GoValue.optionalParam) :=
  (c6_optional_omitted w4 padRaise none (GoValue.str "p") (GoValue.str "a")
    (GoValue.str "b") (by intro v hv; simp [padRaise] at hv)).1 "0"

/-- C1: whenever the body decodes to an envelope, the dispatcher with the
`RaiseEtherpadErrors` flag set and a non-ok code returns an application-level
error carrying exactly that code and that message, with the decoded envelope
still attached (non-nil) alongside the error; with the flag cleared it
returns the same envelope with a nil error. -/
theorem c1_raise_flag_behaviour (w : World) (pad : EtherpadLite) (ctx : Option CtxBehaviour)
    (path : String) (params : List (String × GoValue)) (j : Json) (env : Response)
    (hp : w.parseErr (composeAddress pad path) = none) (hr : w.reqErr = none)
    (hd : clientDo ctx w ⟨composeAddress pad path, buildParams pad.BaseParams params⟩ =
      Except.ok (some j))
    (hj : decodeResponse j = Except.ok env) :
    (pad.RaiseEtherpadErrors = true → env.Code ≠ EverythingOk →
      (sendRequest w pad ctx path params).resp = some env ∧
      (sendRequest w pad ctx path params).err =
        some (GoError.etherpadError env.Code env.Message)) ∧
    (pad.RaiseEtherpadErrors = false →
      (sendRequest w pad ctx path params).resp = some env ∧
      (sendRequest w pad ctx path params).err = none) := by
  constructor
  · intro hflag hcode
    rw [sendRequest_ok_raise w pad ctx path params j env hp hr hd hj hflag hcode]
    exact ⟨rfl, rfl⟩
  · intro hflag
    rw [sendRequest_ok_plain w pad ctx path params j env hp hr hd hj
      (fun hc => by rw [hflag] at hc; exact Bool.noConfusion hc.1)]
    exact ⟨rfl, rfl⟩

/-- C1 witness: the spec's bad-credentials body (`code` 4, `message` "ok")
with the raise-errors flag set produces an `EtherpadError` carrying code 4
and message "ok". -/
theorem c1_raise_flag_behaviour_witness :
    (sendRequest w4 padRaise none "getText" []).err =
      some (GoError.etherpadError 4 "ok") :=
  ((c1_raise_flag_behaviour w4 padRaise none "getText" [] code4Body
    { Code := 4, Message := "ok", Data := some [] } rfl rfl rfl rfl).1
    rfl (by decide)).2

/-- C2 counterexample: with the raise-errors flag set and a non-ok body, the
dispatcher returns a non-nil error together with a non-nil envelope, so
"whenever sendRequest returns a non-nil error, the returned envelope pointer
is nil" is false on the code. -/
theorem c2_counterexample :
    (sendRequest w4 padRaise none "getText" []).err =
      some (GoError.etherpadError 4 "ok") ∧
    (sendRequest w4 padRaise none "getText" []).resp =
      some { Code := 4, Message := "ok", Data := some [] } ∧
    (some { Code := 4, Message := "ok", Data := some [] } : Option Response) ≠ none :=
  ⟨rfl, rfl, Option.some_ne_none _⟩

/-- C2 amended: the result of `sendRequest` is exclusive except for the
application-level error case: either a populated envelope with a nil error,
or a nil envelope with a non-application error, or — when the raise-errors
flag is set and the code is not ok — a populated envelope together with the
application-level error carrying the envelope's code and message. -/
theorem c2_amended_exclusive (w : World) (pad : EtherpadLite) (ctx : Option CtxBehaviour)
    (path : String) (params : List (String × GoValue)) :
    (∃ env, (sendRequest w pad ctx path params).resp = some env ∧
            (sendRequest w pad ctx path params).err = none) ∨
    ((sendRequest w pad ctx path params).resp = none ∧
     ∃ e, (sendRequest w pad ctx path params).err = some e ∧
          ∀ c m, e ≠ GoError.etherpadError c m) ∨
    (∃ env, (sendRequest w pad ctx path params).resp = some env ∧
            (sendRequest w pad ctx path params).err =
              some (GoError.etherpadError env.Code env.Message) ∧
            pad.RaiseEtherpadErrors = true ∧ env.Code ≠ EverythingOk) := by
  cases hp : w.parseErr (composeAddress pad path) with
  | some m =>
    rw [sendRequest_parse_fail w pad ctx path params m hp]
    exact Or.inr (Or.inl ⟨rfl, GoError.parseError m, rfl, fun c mm h => by cases h⟩)
  | none =>
    cases hr : w.reqErr with
    | some m =>
      rw [sendRequest_req_fail w pad ctx path params m hp hr]
      exact Or.inr (Or.inl ⟨rfl, GoError.requestError m, rfl, fun c mm h => by cases h⟩)
    | none =>
      cases hd : clientDo ctx w ⟨composeAddress pad path, buildParams pad.BaseParams params⟩ with
      | error e =>
        rw [sendRequest_do_error w pad ctx path params e hp hr hd]
        refine Or.inr (Or.inl ⟨rfl, e, rfl, ?_⟩)
        rcases clientDo_error_shape ctx w _ e hd with h | ⟨m, h⟩ <;> subst h <;>
          exact fun c mm hh => by cases hh
      | ok ob =>
        cases ob with
        | none =>
          rw [sendRequest_bad_json w pad ctx path params hp hr hd]
          exact Or.inr (Or.inl ⟨rfl, GoError.jsonError "invalid character in JSON body", rfl,
            fun c mm h => by cases h⟩)
        | some j =>
          cases hj : decodeResponse j with
          | error m =>
            rw [sendRequest_decode_fail w pad ctx path params j m hp hr hd hj]
            exact Or.inr (Or.inl ⟨rfl, GoError.jsonError m, rfl, fun c mm h => by cases h⟩)
          | ok env =>
            by_cases hq : pad.RaiseEtherpadErrors = true ∧ env.Code ≠ EverythingOk
            · rw [sendRequest_ok_raise w pad ctx path params j env hp hr hd hj hq.1 hq.2]
              exact Or.inr (Or.inr ⟨env, rfl, rfl, hq.1, hq.2⟩)
            · rw [sendRequest_ok_plain w pad ctx path params j env hp hr hd hj hq]
              exact Or.inl ⟨env, rfl, rfl⟩

/-- C4 counterexample: the empty JSON object is valid JSON that does not
match the three-field envelope shape, yet the dispatcher decodes it
successfully (all fields at their zero values) and returns an envelope with
a nil error even with the raise-errors flag set — not a decode failure. -/
theorem c4_counterexample :
    decodeResponse (Json.obj []) =
      Except.ok { Code := 0, Message := "", Data := none } ∧
    (sendRequest wEmptyObj padRaise none "getText" []).resp =
      some { Code := 0, Message := "", Data := none } ∧
    (sendRequest wEmptyObj padRaise none "getText" []).err = none :=
  ⟨rfl, rfl, rfl⟩

/-- C4 amended: a body that is not valid JSON, or whose decoding into the
envelope fails, makes `sendRequest` return a decode failure and no envelope,
regardless of the raise-errors flag; decoding fails for every top-level
shape other than a JSON object or a top-level `null`, but a JSON object with
missing or unknown fields decodes successfully with the missing fields at
their zero values, and a top-level `null` is a no-op yielding the zero
envelope with a nil error. -/
theorem c4_amended_decode (w : World) (pad : EtherpadLite) (path : String)
    (params : List (String × GoValue))
    (hp : w.parseErr (composeAddress pad path) = none) (hr : w.reqErr = none) :
    (w.transport ⟨composeAddress pad path, buildParams pad.BaseParams params⟩ =
        DoOutcome.body none →
      (sendRequest w pad none path params).resp = none ∧
      ∃ m, (sendRequest w pad none path params).err = some (GoError.jsonError m)) ∧
    (∀ j m, w.transport ⟨composeAddress pad path, buildParams pad.BaseParams params⟩ =
        DoOutcome.body (some j) →
      decodeResponse j = Except.error m →
      (sendRequest w pad none path params).resp = none ∧
      (sendRequest w pad none path params).err = some (GoError.jsonError m)) ∧
    (∀ j, (∀ fields, j ≠ Json.obj fields) → j ≠ Json.null →
      ∃ m, decodeResponse j = Except.error m) ∧
    decodeResponse Json.null = Except.ok { Code := 0, Message := "", Data := none } := by
  have hdo : ∀ b, w.transport ⟨composeAddress pad path, buildParams pad.BaseParams params⟩ =
      DoOutcome.body b →
      clientDo none w ⟨composeAddress pad path, buildParams pad.BaseParams params⟩ =
        Except.ok b := by
    intro b hb
    unfold clientDo
    rw [hb]
  refine ⟨?_, ?_, ?_, rfl⟩
  · intro ht
    rw [sendRequest_bad_json w pad none path params hp hr (hdo none ht)]
    exact ⟨rfl, "invalid character in JSON body", rfl⟩
  · intro j m ht hj
    rw [sendRequest_decode_fail w pad none path params j m hp hr (hdo (some j) ht) hj]
    exact ⟨rfl, rfl⟩
  · intro j hobj hnull
    cases j with
    | obj fields => exact absurd rfl (hobj fields)
    | null => exact absurd rfl hnull
    | bool b => exact ⟨_, rfl⟩
    | num n => exact ⟨_, rfl⟩
    | str s => exact ⟨_, rfl⟩
    | arr elems => exact ⟨_, rfl⟩

/-- C4 witness: a body that is not valid JSON yields no envelope, with the
raise-errors flag set. -/
theorem c4_amended_decode_witness :
    (sendRequest wBadJson padRaise none "getText" []).resp = none :=
  ((c4_amended_decode wBadJson padRaise "getText" [] rfl rfl).1 rfl).1

/-- C7: a cancellation signal fired before the call starts, or while the
network call is in flight, makes the dispatcher return no envelope and the
cancellation failure, which is distinct from every ordinary transport
failure. -/
theorem c7_cancellation (w : World) (pad : EtherpadLite) (path : String)
    (params : List (String × GoValue))
    (hp : w.parseErr (composeAddress pad path) = none) (hr : w.reqErr = none) :
    ((sendRequest w pad (some CtxBehaviour.beforeCall) path params).resp = none ∧
     (sendRequest w pad (some CtxBehaviour.beforeCall) path params).err =
       some GoError.ctxCancelled) ∧
    ((sendRequest w pad (some CtxBehaviour.duringCall) path params).resp = none ∧
     (sendRequest w pad (some CtxBehaviour.duringCall) path params).err =
       some GoError.ctxCancelled) ∧
    (∀ m, GoError.ctxCancelled ≠ GoError.transportError m) := by
  rw [sendRequest_do_error w pad (some CtxBehaviour.beforeCall) path params
      GoError.ctxCancelled hp hr rfl,
    sendRequest_do_error w pad (some CtxBehaviour.duringCall) path params
      GoError.ctxCancelled hp hr rfl]
  exact ⟨⟨rfl, rfl⟩, ⟨rfl, rfl⟩, fun m h => by cases h⟩

/-- C7 witness: under the example configuration, a context cancelled before
the call yields the cancellation failure. -/
theorem c7_cancellation_witness :
    (sendRequest w4 padRaise (some CtxBehaviour.beforeCall) "getText" []).err =
      some GoError.ctxCancelled :=
  ((c7_cancellation w4 padRaise "getText" [] rfl rfl).1).2

/-- C9: the dispatcher prints nothing, leaves every field of the endpoint
configuration unchanged, and issues at most one outbound request — exactly
one whenever the composed address parses and the request object is built. -/
theorem c9_frame (w : World) (pad : EtherpadLite) (ctx : Option CtxBehaviour)
    (path : String) (params : List (String × GoValue)) :
    (sendRequest w pad ctx path params).prints = [] ∧
    (sendRequest w pad ctx path params).padAfter = pad ∧
    (sendRequest w pad ctx path params).sent.length ≤ 1 ∧
    (w.parseErr (composeAddress pad path) = none → w.reqErr = none →
      (sendRequest w pad ctx path params).sent.length = 1) := by
  cases hp : w.parseErr (composeAddress pad path) with
  | some m =>
    rw [sendRequest_parse_fail w pad ctx path params m hp]
    refine ⟨rfl, rfl, by simp, ?_⟩
    intro hnone _
    exact Option.noConfusion hnone
  | none =>
    cases hr : w.reqErr with
    | some m =>
      rw [sendRequest_req_fail w pad ctx path params m hp hr]
      refine ⟨rfl, rfl, by simp, ?_⟩
      intro _ hnone
      exact Option.noConfusion hnone
    | none =>
      cases hd : clientDo ctx w ⟨composeAddress pad path, buildParams pad.BaseParams params⟩ with
      | error e =>
        rw [sendRequest_do_error w pad ctx path params e hp hr hd]
        exact ⟨rfl, rfl, by simp, fun _ _ => rfl⟩
      | ok ob =>
        cases ob with
        | none =>
          rw [sendRequest_bad_json w pad ctx path params hp hr hd]
          exact ⟨rfl, rfl, by simp, fun _ _ => rfl⟩
        | some j =>
          cases hj : decodeResponse j with
          | error m =>
            rw [sendRequest_decode_fail w pad ctx path params j m hp hr hd hj]
            exact ⟨rfl, rfl, by simp, fun _ _ => rfl⟩
          | ok env =>
            by_cases hq : pad.RaiseEtherpadErrors = true ∧ env.Code ≠ EverythingOk
            · rw [sendRequest_ok_raise w pad ctx path params j env hp hr hd hj hq.1 hq.2]
              exact ⟨rfl, rfl, by simp, fun _ _ => rfl⟩
            · rw [sendRequest_ok_plain w pad ctx path params j env hp hr hd hj hq]
              exact ⟨rfl, rfl, by simp, fun _ _ => rfl⟩

/-- C9 witness: under the example configuration exactly one request goes
out. -/
theorem c9_frame_witness :
    (sendRequest w4 padRaise none "getText" []).sent.length = 1 :=
  (c9_frame w4 padRaise none "getText" []).2.2.2 rfl rfl

end Etherpadlite
